import Mathlib

/-!
Shallow embedding of `airflow-provider-kakao`, file
`src/airflow/providers/kakao/hooks/kakao.py` (class `KakaoHook`).

The hook performs outbound HTTP via `requests.post`; we model the network as
an oracle `World.net : Nat → HttpResult` giving the result of the n-th HTTP
call of the invocation, and we record every issued call (url, headers, form
data) in an explicit trace `St.calls`.  Python dictionaries whose values are
arbitrary JSON-like objects are modelled as association lists over an
inductive `Json` type.  `json.dumps` is modelled concretely (`jsonDumps`);
`json.loads` is an explicit parameter (`jsonLoads`) of the payload builder,
since nothing in the hook depends on the parse result's shape.
-/

namespace Kakao

/-- JSON-like values: the Python values that can appear in `api_params`,
in HTTP JSON responses, and in message payloads. -/
inductive Json where
  | null
  | bool (b : Bool)
  | num (n : Int)
  | str (s : String)
  | arr (elems : List Json)
  | obj (fields : List (String × Json))

/-- Python truthiness of a JSON-like value (`if x:`). -/
def jsonTruthy : Json → Bool
  | .null => false
  | .bool b => b
  | .num n => n != 0
  | .str s => s != ""
  | .arr es => !es.isEmpty
  | .obj fs => !fs.isEmpty

/-- Python `str.__str__` as far as the hook's f-strings need it: a string
renders as itself.  (The hook only interpolates the access token, which the
API returns as a JSON string.) -/
def pyStr : Json → String
  | .null => "None"
  | .bool true => "True"
  | .bool false => "False"
  | .num n => toString n
  | .str s => s
  | .arr _ => "<list>"
  | .obj _ => "<dict>"

/-- Python `type(x).__name__` for a JSON-like value, as it appears in the
`AttributeError` raised by calling `.get` on a non-dict. -/
def pyTypeName : Json → String
  | .null => "NoneType"
  | .bool _ => "bool"
  | .num _ => "int"
  | .str _ => "str"
  | .arr _ => "list"
  | .obj _ => "dict"

/-- First-match lookup in an association list, modelling `d[k]` / `d.get(k)`
on a Python dict (keys are unique in a real dict; first match is faithful). -/
def dictGet (fields : List (String × Json)) (key : String) : Option Json :=
  match fields with
  | [] => none
  | (k, v) :: rest => if k = key then some v else dictGet rest key

/-- `key in d` on a Python dict. -/
def dictHas (fields : List (String × Json)) (key : String) : Bool :=
  (dictGet fields key).isSome

/-- Serialization of a JSON string literal body (Python `json.dumps` string
escaping, minimal form: quote, backslash, newline, the rest verbatim). -/
def dumpStringBody : List Char → String
  | [] => ""
  | c :: rest =>
    (if c = '"' then "\\\""
     else if c = '\\' then "\\\\"
     else if c = '\n' then "\\n"
     else String.singleton c) ++ dumpStringBody rest

mutual

/-- `json.dumps` with Python's default separators (", " and ": "). -/
def jsonDumps : Json → String
  | .null => "null"
  | .bool true => "true"
  | .bool false => "false"
  | .num n => toString n
  | .str s => "\"" ++ dumpStringBody s.data ++ "\""
  | .arr es => "[" ++ dumpsList es ++ "]"
  | .obj fs => "\x7b" ++ dumpsFields fs ++ "\x7d"

def dumpsList : List Json → String
  | [] => ""
  | [e] => jsonDumps e
  | e :: rest => jsonDumps e ++ ", " ++ dumpsList rest

def dumpsFields : List (String × Json) → String
  | [] => ""
  | [(k, v)] => "\"" ++ dumpStringBody k.data ++ "\": " ++ jsonDumps v
  | (k, v) :: rest =>
      "\"" ++ dumpStringBody k.data ++ "\": " ++ jsonDumps v ++ ", " ++ dumpsFields rest

end

/-- One outbound HTTP POST as issued by `requests.post(url, headers=…, data=…)`. -/
structure HttpCall where
  url : String
  headers : List (String × String)
  data : List (String × String)
deriving DecidableEq, Repr

/-- Outcome of a single `requests.post` call:
`ok` — 2xx status, body parses as the given JSON;
`httpError` — `raise_for_status()` raises `requests.exceptions.HTTPError`;
`transportError` — `requests.post` itself raises a transport-level
exception (e.g. `ConnectionError`), which is *not* an `HTTPError`. -/
inductive HttpResult where
  | ok (body : Json)
  | httpError (detail : String)
  | transportError (detail : String)

/-- Python exceptions the hook can raise or let propagate. -/
inductive PyError where
  | airflowException (msg : String)
  | typeError (msg : String)
  | transportError (detail : String)
  | jsonDecodeError (msg : String)
  | attributeError (msg : String)
  | connNotFound (connId : String)
deriving DecidableEq, Repr

/-- An Airflow connection as the hook reads it: `login`, `password`, and the
`client_secret` key of the JSON extras. -/
structure Conn where
  login : Option String
  password : Option String
  client_secret : Option String
deriving DecidableEq, Repr

/-- The environment: the network oracle (result of the n-th HTTP call of the
invocation) and the Airflow connection store (`BaseHook.get_connection`). -/
structure World where
  net : Nat → HttpResult
  conns : String → Option Conn

/-- Constructor state of a `KakaoHook` (`__init__`). -/
structure KakaoHook where
  _token : Option String
  kakao_conn_id : Option String
deriving DecidableEq, Repr

def token_url : String := "https://kauth.kakao.com/oauth/token"
def send_me_url : String := "https://kapi.kakao.com/v2/api/talk/memo/default/send"
def send_friend_url : String := "https://kapi.kakao.com/v1/api/talk/friends/message/default/send"

/-- Mutable per-invocation state: the `@cached_property` backing slot for
`token`, and the trace of HTTP calls issued so far (in order). -/
structure St where
  cache : Option String
  calls : List HttpCall
deriving DecidableEq, Repr

def initSt : St := { cache := none, calls := [] }

/-- Issue one `requests.post`: record the call and consult the oracle at the
current call index. -/
def doPost (w : World) (st : St) (url : String)
    (headers data : List (String × String)) : HttpResult × St :=
  (w.net st.calls.length,
   { st with calls := st.calls ++ [{ url := url, headers := headers, data := data }] })

/-- Python truthiness of an `Optional[str]` (`if x:` on `str | None`). -/
def strTruthy : Option String → Bool
  | none => false
  | some s => s != ""

/-- Body of the `token` property (kakao.py lines 113–162), run when the
cached slot is empty.  All exceptions inside the `try` (transport errors,
`raise_for_status`, missing `access_token`) are caught and re-raised as
`AirflowException("Kakao Token Refresh Error: …")`. -/
def tokenBody (w : World) (hook : KakaoHook) (st : St) :
    Except PyError String × St :=
  match hook._token with
  | some t =>
    if t != "" then (Except.ok t, st)
    else tokenRefresh w hook st
  | none => tokenRefresh w hook st
where
  tokenRefresh (w : World) (hook : KakaoHook) (st : St) :
      Except PyError String × St :=
    match hook.kakao_conn_id with
    | none => (Except.error (.airflowException "No valid Kakao connection supplied."), st)
    | some connId =>
      if connId = "" then
        (Except.error (.airflowException "No valid Kakao connection supplied."), st)
      else
        match w.conns connId with
        | none => (Except.error (.connNotFound connId), st)
        | some conn =>
          if !strTruthy conn.login || !strTruthy conn.password then
            (Except.error (.airflowException
              "REST API Key (Login) or Refresh Token (Password) is missing in the Connection."), st)
          else
            let headers := [("Content-Type", "application/x-www-form-urlencoded;charset=utf-8")]
            let data :=
              [("grant_type", "refresh_token"),
               ("client_id", conn.login.getD ""),
               ("refresh_token", conn.password.getD "")] ++
              (if strTruthy conn.client_secret
               then [("client_secret", conn.client_secret.getD "")] else [])
            match doPost w st token_url headers data with
            | (.ok body, st') =>
              match body with
              | .obj fields =>
                match dictGet fields "access_token" with
                | some tok =>
                  if jsonTruthy tok then (Except.ok (pyStr tok), st')
                  else (Except.error (.airflowException
                    "Kakao Token Refresh Error: Token Refresh Failed: No access_token in response"), st')
                | none => (Except.error (.airflowException
                    "Kakao Token Refresh Error: Token Refresh Failed: No access_token in response"), st')
              | _ => (Except.error (.airflowException
                  "Kakao Token Refresh Error: Token Refresh Failed: No access_token in response"), st')
            | (.httpError d, st') =>
              (Except.error (.airflowException ("Kakao Token Refresh Error: " ++ d)), st')
            | (.transportError d, st') =>
              (Except.error (.airflowException ("Kakao Token Refresh Error: " ++ d)), st')

/-- Reading `self.token` through `@cached_property`: a cached value is
returned without running the body; a successful body run stores its result;
a raising body run stores nothing. -/
def readToken (w : World) (hook : KakaoHook) (st : St) :
    Except PyError String × St :=
  match st.cache with
  | some t => (Except.ok t, st)
  | none =>
    match tokenBody w hook st with
    | (Except.ok t, st') => (Except.ok t, { st' with cache := some t })
    | (Except.error e, st') => (Except.error e, st')

def default_url : String := "http://localhost:8080"

/-- Payload construction, kakao.py lines 187–206.  `jsonLoads` models
`json.loads`; a parse failure raises `json.JSONDecodeError`, which the hook
does not catch (the `try` block starts after payload construction). -/
def buildPayload (jsonLoads : String → Except String Json)
    (api_params : List (String × Json)) : Except PyError Json :=
  if dictHas api_params "template_object" then
    match dictGet api_params "template_object" with
    | some (.str s) =>
      match jsonLoads s with
      | .ok v => Except.ok v
      | .error m => Except.error (.jsonDecodeError m)
    | some v => Except.ok v
    | none => Except.ok .null
  else if dictHas api_params "text" then
    let text := (dictGet api_params "text").getD .null
    let web_url := (dictGet api_params "web_url").getD (.str default_url)
    let mobile_web_url := (dictGet api_params "mobile_web_url").getD web_url
    Except.ok (.obj
      [("object_type", .str "text"),
       ("text", text),
       ("link", .obj
         [("web_url", web_url),
          ("mobile_web_url", mobile_web_url)])])
  else
    Except.error (.airflowException "message_args must contain 'text' or 'template_object'.")

/-- The chunking list comprehension, kakao.py lines 215-218:
`[receiver_uuids[i : i + 5] for i in range(0, len(receiver_uuids), 5)]`,
written with structural recursion (five-deep matching); `chunk5_step` below
proves it equal to the take-5/drop-5 comprehension step. -/
def chunk5 {α : Type} : List α → List (List α)
  | [] => []
  | [a] => [[a]]
  | [a, b] => [[a, b]]
  | [a, b, c] => [[a, b, c]]
  | [a, b, c, d] => [[a, b, c, d]]
  | a :: b :: c :: d :: e :: rest => [a, b, c, d, e] :: chunk5 rest

/-- `chunk5` performs exactly the comprehension step of the source: first
`receiver_uuids[0:5]`, then the chunks of `receiver_uuids[5:]`. -/
theorem chunk5_step {α : Type} (x : α) (rest : List α) :
    chunk5 (x :: rest) = (x :: rest).take 5 :: chunk5 ((x :: rest).drop 5) := by
  match rest with
  | [] => rfl
  | [b] => rfl
  | [b, c] => rfl
  | [b, c, d] => rfl
  | [b, c, d, e] => rfl
  | b :: c :: d :: e :: f :: rest => rfl

/-- Outcome of one send `requests.post` as seen by the surrounding
`try`/`except` of `send_message`: only `requests.exceptions.HTTPError`
(raised by `raise_for_status`) is caught there; transport-level exceptions
and the `AttributeError` raised by `result.get("failure_info", [])` on a
non-dict 2xx body (kakao.py line 242) propagate unwrapped. -/
inductive SendErr where
  | httpErr (detail : String)
  | transportErr (detail : String)
  | attrErr (msg : String)

/-- The friend-send loop, kakao.py lines 224–246.  After a 2xx response the
loop runs `failed_uuids = result.get("failure_info", [])` (line 242): on a
JSON-object body this only logs a warning and the loop continues; on any
other body (`list`, `str`, `int`, `bool`, `None`) the `.get` call raises
`AttributeError`, which aborts the loop (the exception is not an
`HTTPError`, so it propagates out of `send_message` unwrapped). -/
def sendBatches (w : World) (headers : List (String × String))
    (payload : Json) (chunks : List (List String)) (st : St) (acc : List Json) :
    Except SendErr (List Json) × St :=
  match chunks with
  | [] => (Except.ok acc, st)
  | chunk :: rest =>
    let data :=
      [("receiver_uuids", jsonDumps (.arr (chunk.map .str))),
       ("template_object", jsonDumps payload)]
    match doPost w st send_friend_url headers data with
    | (.ok body, st') =>
      match body with
      | .obj fields => sendBatches w headers payload rest st' (acc ++ [.obj fields])
      | _ =>
        (Except.error (.attrErr
          ("'" ++ pyTypeName body ++ "' object has no attribute 'get'")), st')
    | (.httpError d, st') => (Except.error (.httpErr d), st')
    | (.transportError d, st') => (Except.error (.transportErr d), st')

/-- The headers of every send call (kakao.py lines 182–185). -/
def sendHeaders (current_token : String) : List (String × String) :=
  [("Authorization", "Bearer " ++ current_token),
   ("Content-Type", "application/x-www-form-urlencoded")]

/-- `KakaoHook.send_message`, kakao.py lines 164–259.
`api_params = none` models the Python default `api_params=None`: the key
test `"template_object" in api_params` then raises
`TypeError: argument of type 'NoneType' is not iterable`. -/
def send_message (jsonLoads : String → Except String Json) (w : World)
    (hook : KakaoHook) (st : St) (receiver_uuids : Option (List String))
    (api_params : Option (List (String × Json))) :
    Except PyError (List Json) × St :=
  match readToken w hook st with
  | (Except.error e, st1) => (Except.error e, st1)
  | (Except.ok current_token, st1) =>
    let headers := sendHeaders current_token
    match api_params with
    | none =>
      (Except.error (.typeError "argument of type 'NoneType' is not iterable"), st1)
    | some params =>
      match buildPayload jsonLoads params with
      | Except.error e => (Except.error e, st1)
      | Except.ok payload =>
        -- `if receiver_uuids:` — both None and [] are falsy
        match receiver_uuids with
        | some (u :: us) =>
          (match sendBatches w headers payload (chunk5 (u :: us)) st1 [] with
           | (Except.ok results, st2) => (Except.ok results, st2)
           | (Except.error (.httpErr d), st2) =>
             (Except.error (.airflowException ("KakaoTalk Send Error: " ++ d)), st2)
           | (Except.error (.transportErr d), st2) =>
             (Except.error (.transportError d), st2)
           | (Except.error (.attrErr m), st2) =>
             (Except.error (.attributeError m), st2))
        | _ =>
          let data := [("template_object", jsonDumps payload)]
          match doPost w st1 send_me_url headers data with
          | (.ok body, st2) => (Except.ok [body], st2)
          | (.httpError d, st2) =>
            (Except.error (.airflowException ("KakaoTalk Send Error: " ++ d)), st2)
          | (.transportError d, st2) => (Except.error (.transportError d), st2)

/-- Whether an HTTP call succeeded (2xx) with a JSON-object body — the only
responses on which the friend-send loop continues, since
`result.get("failure_info", [])` (kakao.py line 242) raises
`AttributeError` on every non-dict body. -/
def HttpResult.isOkDict : HttpResult → Bool
  | .ok (.obj _) => true
  | _ => false

/-- The exception raised at a send call, as classified by `send_message`'s
`except requests.exceptions.HTTPError` clause, when the call failed. -/
def failErr : HttpResult → Option SendErr
  | .ok _ => none
  | .httpError d => some (.httpErr d)
  | .transportError d => some (.transportErr d)

/-- The parsed body of a successful call (`response.json()`); dummy on
failures, where the hook never reads a body. -/
def HttpResult.body : HttpResult → Json
  | .ok b => b
  | .httpError _ => .null
  | .transportError _ => .null

/-- The list of `n` response bodies starting at call index `start`. -/
def okBodies (w : World) (start n : Nat) : List Json :=
  match n with
  | 0 => []
  | n + 1 => (w.net start).body :: okBodies w (start + 1) n

/-- The `HttpCall` that one friend-send batch issues. -/
def mkFriendCall (headers : List (String × String)) (payload : Json)
    (chunk : List String) : HttpCall :=
  { url := send_friend_url,
    headers := headers,
    data := [("receiver_uuids", jsonDumps (.arr (chunk.map .str))),
             ("template_object", jsonDumps payload)] }

/-- The `HttpCall` that the self-send branch issues. -/
def mkSelfCall (headers : List (String × String)) (payload : Json) : HttpCall :=
  { url := send_me_url,
    headers := headers,
    data := [("template_object", jsonDumps payload)] }

/-- The `HttpCall` of the token-refresh POST for a given connection. -/
def mkTokenCall (conn : Conn) : HttpCall :=
  { url := token_url,
    headers := [("Content-Type", "application/x-www-form-urlencoded;charset=utf-8")],
    data :=
      [("grant_type", "refresh_token"),
       ("client_id", conn.login.getD ""),
       ("refresh_token", conn.password.getD "")] ++
      (if strTruthy conn.client_secret
       then [("client_secret", conn.client_secret.getD "")] else []) }

/-- Number of HTTP calls to the token-refresh endpoint in the trace. -/
def tokenCallCount (st : St) : Nat :=
  (st.calls.filter fun c => c.url == token_url).length

/- ### Lemmas about the chunking comprehension -/

theorem chunk5_join {α : Type} (xs : List α) : (chunk5 xs).flatten = xs := by
  induction xs using chunk5.induct with
  | case1 => rfl
  | case2 a => rfl
  | case3 a b => rfl
  | case4 a b c => rfl
  | case5 a b c d => rfl
  | case6 a b c d e rest ih => simp [chunk5, ih]

theorem chunk5_mem_length_le {α : Type} (xs : List α) (c : List α)
    (hc : c ∈ chunk5 xs) : c.length ≤ 5 := by
  induction xs using chunk5.induct with
  | case1 => simp [chunk5] at hc
  | case2 a => simp [chunk5] at hc; subst hc; simp
  | case3 a b => simp [chunk5] at hc; subst hc; simp
  | case4 a b c' => simp [chunk5] at hc; subst hc; simp
  | case5 a b c' d => simp [chunk5] at hc; subst hc; simp
  | case6 a b c' d e rest ih =>
    rw [chunk5] at hc
    rcases List.mem_cons.mp hc with h | h
    · subst h; simp
    · exact ih h

theorem chunk5_length {α : Type} (xs : List α) :
    (chunk5 xs).length = (xs.length + 4) / 5 := by
  induction xs using chunk5.induct with
  | case1 => simp [chunk5]
  | case2 a => simp [chunk5]
  | case3 a b => simp [chunk5]
  | case4 a b c => simp [chunk5]
  | case5 a b c d => simp [chunk5]
  | case6 a b c d e rest ih =>
    show (chunk5 rest).length + 1 = (rest.length + 5 + 4) / 5
    rw [ih, show rest.length + 5 + 4 = rest.length + 4 + 5 from by omega,
        Nat.add_div_right _ (by norm_num)]

theorem chunk5_dropLast_full {α : Type} (xs : List α) (c : List α)
    (hc : c ∈ (chunk5 xs).dropLast) : c.length = 5 := by
  induction xs using chunk5.induct with
  | case1 => simp [chunk5] at hc
  | case2 a => simp [chunk5] at hc
  | case3 a b => simp [chunk5] at hc
  | case4 a b c' => simp [chunk5] at hc
  | case5 a b c' d => simp [chunk5] at hc
  | case6 a b c' d e rest ih =>
    rw [chunk5] at hc
    match hch : chunk5 rest with
    | [] =>
      rw [hch] at hc
      simp at hc
    | y :: ys =>
      rw [hch] at hc
      rw [List.dropLast_cons₂] at hc
      rcases List.mem_cons.mp hc with h | h
      · subst h; rfl
      · rw [hch] at ih
        exact ih h

/- ### Lemmas about token reading -/

/-- A cached token is returned as-is: no state change, no HTTP call. -/
theorem readToken_cached (w : World) (hook : KakaoHook) (st : St) (t : String)
    (hc : st.cache = some t) : readToken w hook st = (Except.ok t, st) := by
  unfold readToken
  rw [hc]

/-- A truthy constructor override is returned on first read and cached;
no HTTP call is made. -/
theorem readToken_override (w : World) (hook : KakaoHook) (st : St) (t : String)
    (hc : st.cache = none) (ht : hook._token = some t) (hne : t ≠ "") :
    readToken w hook st = (Except.ok t, { st with cache := some t }) := by
  unfold readToken tokenBody
  rw [hc, ht]
  simp [hne]

/-- Successful refresh on a cold cache: one POST to the token endpoint is
issued and its access token is cached. -/
theorem readToken_refresh_success (w : World) (hook : KakaoHook) (st : St)
    (connId : String) (conn : Conn) (fields : List (String × Json)) (tok : String)
    (hc : st.cache = none) (ht : hook._token = none)
    (hid : hook.kakao_conn_id = some connId) (hid' : connId ≠ "")
    (hconn : w.conns connId = some conn)
    (hlogin : strTruthy conn.login = true) (hpw : strTruthy conn.password = true)
    (hnet : w.net st.calls.length = .ok (.obj fields))
    (hfield : dictGet fields "access_token" = some (.str tok)) (htok : tok ≠ "") :
    readToken w hook st =
      (Except.ok tok, { cache := some tok, calls := st.calls ++ [mkTokenCall conn] }) := by
  unfold readToken tokenBody tokenBody.tokenRefresh doPost mkTokenCall
  rw [hc, ht, hid]
  simp [hid', hconn, hnet, hfield, hlogin, hpw, jsonTruthy, htok, pyStr]

/- ### Lemmas about the friend-send loop -/

theorem isOkDict_iff_exists (r : HttpResult) :
    r.isOkDict = true ↔ ∃ fields, r = .ok (.obj fields) := by
  cases r with
  | ok b => cases b <;> simp [HttpResult.isOkDict]
  | httpError d => simp [HttpResult.isOkDict]
  | transportError d => simp [HttpResult.isOkDict]

/-- Unfolding equation for one iteration of the friend-send loop when the
call succeeds with a JSON-object body (the `failure_info` check then only
logs a warning and the loop continues). -/
theorem sendBatches_cons_ok (w : World) (hd : List (String × String)) (p : Json)
    (chunk : List String) (rest : List (List String)) (st : St) (acc : List Json)
    (fields : List (String × Json))
    (hb : w.net st.calls.length = .ok (.obj fields)) :
    sendBatches w hd p (chunk :: rest) st acc =
      sendBatches w hd p rest
        { st with calls := st.calls ++ [mkFriendCall hd p chunk] } (acc ++ [.obj fields]) := by
  rw [sendBatches]
  unfold doPost mkFriendCall
  rw [hb]

/-- Unfolding equation for one iteration of the friend-send loop when the
call succeeds but the body is not a JSON object: `result.get` raises
`AttributeError` and the loop aborts after the current batch. -/
theorem sendBatches_cons_attrError (w : World) (hd : List (String × String)) (p : Json)
    (chunk : List String) (rest : List (List String)) (st : St) (acc : List Json)
    (body : Json) (hb : w.net st.calls.length = .ok body)
    (hnd : ∀ fields, body ≠ .obj fields) :
    sendBatches w hd p (chunk :: rest) st acc =
      (Except.error (.attrErr ("'" ++ pyTypeName body ++ "' object has no attribute 'get'")),
       { st with calls := st.calls ++ [mkFriendCall hd p chunk] }) := by
  rw [sendBatches]
  unfold doPost mkFriendCall
  rw [hb]
  cases body with
  | obj fields => exact absurd rfl (hnd fields)
  | null => rfl
  | bool b => rfl
  | num n => rfl
  | str s => rfl
  | arr es => rfl

/-- Unfolding equation for one iteration of the friend-send loop when
`raise_for_status` raises. -/
theorem sendBatches_cons_httpError (w : World) (hd : List (String × String)) (p : Json)
    (chunk : List String) (rest : List (List String)) (st : St) (acc : List Json)
    (d : String) (hb : w.net st.calls.length = .httpError d) :
    sendBatches w hd p (chunk :: rest) st acc =
      (Except.error (.httpErr d), { st with calls := st.calls ++ [mkFriendCall hd p chunk] }) := by
  rw [sendBatches]
  unfold doPost mkFriendCall
  rw [hb]

/-- Unfolding equation for one iteration of the friend-send loop when
`requests.post` raises a transport error. -/
theorem sendBatches_cons_transportError (w : World) (hd : List (String × String)) (p : Json)
    (chunk : List String) (rest : List (List String)) (st : St) (acc : List Json)
    (d : String) (hb : w.net st.calls.length = .transportError d) :
    sendBatches w hd p (chunk :: rest) st acc =
      (Except.error (.transportErr d), { st with calls := st.calls ++ [mkFriendCall hd p chunk] }) := by
  rw [sendBatches]
  unfold doPost mkFriendCall
  rw [hb]

/-- When every HTTP call succeeds with a JSON-object body, the loop issues
exactly one friend-send call per chunk, in chunk order, and accumulates one
response per chunk. -/
theorem sendBatches_allOk (w : World) (hd : List (String × String)) (p : Json)
    (chunks : List (List String)) (st : St) (acc : List Json)
    (hok : ∀ n, (w.net n).isOkDict = true) :
    sendBatches w hd p chunks st acc =
      (Except.ok (acc ++ okBodies w st.calls.length chunks.length),
       { st with calls := st.calls ++ chunks.map (mkFriendCall hd p) }) := by
  induction chunks generalizing st acc with
  | nil => simp [sendBatches, okBodies]
  | cons chunk rest ih =>
    obtain ⟨fields, hb⟩ := (isOkDict_iff_exists _).mp (hok st.calls.length)
    rw [sendBatches_cons_ok w hd p chunk rest st acc fields hb,
        ih { st with calls := st.calls ++ [mkFriendCall hd p chunk] } (acc ++ [Json.obj fields])]
    simp [okBodies, hb, HttpResult.body]

/-- When the k-th call of the loop fails (earlier ones succeeding with
JSON-object bodies), the loop stops: batches 0..k are issued exactly once
each, later batches are not issued, and the failure is returned. -/
theorem sendBatches_fail (w : World) (hd : List (String × String)) (p : Json)
    (chunks : List (List String)) (st : St) (acc : List Json) (k : Nat) (e : SendErr)
    (hk : k < chunks.length)
    (hok : ∀ j, j < k → (w.net (st.calls.length + j)).isOkDict = true)
    (hfail : failErr (w.net (st.calls.length + k)) = some e) :
    sendBatches w hd p chunks st acc =
      (Except.error e,
       { st with calls := st.calls ++ (chunks.take (k + 1)).map (mkFriendCall hd p) }) := by
  induction chunks generalizing st acc k with
  | nil => exact absurd hk (by simp)
  | cons chunk rest ih =>
    cases k with
    | zero =>
      simp only [Nat.add_zero] at hfail
      cases hnet : w.net st.calls.length with
      | ok b => rw [hnet] at hfail; simp [failErr] at hfail
      | httpError d =>
        rw [hnet] at hfail
        simp only [failErr, Option.some.injEq] at hfail
        subst hfail
        rw [sendBatches_cons_httpError w hd p chunk rest st acc d hnet]
        simp
      | transportError d =>
        rw [hnet] at hfail
        simp only [failErr, Option.some.injEq] at hfail
        subst hfail
        rw [sendBatches_cons_transportError w hd p chunk rest st acc d hnet]
        simp
    | succ k' =>
      obtain ⟨fields, hb⟩ := (isOkDict_iff_exists _).mp
        (by simpa using hok 0 (Nat.succ_pos k'))
      rw [sendBatches_cons_ok w hd p chunk rest st acc fields hb]
      have hlen1 : ({ st with calls := st.calls ++ [mkFriendCall hd p chunk] } : St).calls.length
          = st.calls.length + 1 := by simp
      rw [ih _ _ k' (by simpa using hk)
        (fun j hj => by
          rw [hlen1, Nat.add_assoc, Nat.add_comm 1 j]
          exact hok (j + 1) (by omega))
        (by
          rw [hlen1, Nat.add_assoc, Nat.add_comm 1 k']
          exact hfail)]
      simp

/- ### Unfolding lemmas for send_message -/

/-- A token-read failure propagates unchanged. -/
theorem send_message_token_error (jl : String → Except String Json) (w : World)
    (hook : KakaoHook) (st st1 : St) (uuids : Option (List String))
    (params : Option (List (String × Json))) (e : PyError)
    (he : readToken w hook st = (Except.error e, st1)) :
    send_message jl w hook st uuids params = (Except.error e, st1) := by
  unfold send_message
  rw [he]

/-- With the token resolved, `api_params=None` raises `TypeError` from the
membership test, before any send call. -/
theorem send_message_none_params (jl : String → Except String Json) (w : World)
    (hook : KakaoHook) (st st1 : St) (uuids : Option (List String)) (tok : String)
    (htok : readToken w hook st = (Except.ok tok, st1)) :
    send_message jl w hook st uuids none =
      (Except.error (.typeError "argument of type 'NoneType' is not iterable"), st1) := by
  unfold send_message
  rw [htok]

/-- A payload-construction failure propagates, with no send call issued. -/
theorem send_message_payload_error (jl : String → Except String Json) (w : World)
    (hook : KakaoHook) (st st1 : St) (uuids : Option (List String))
    (params : List (String × Json)) (tok : String) (e : PyError)
    (htok : readToken w hook st = (Except.ok tok, st1))
    (hpay : buildPayload jl params = Except.error e) :
    send_message jl w hook st uuids (some params) = (Except.error e, st1) := by
  unfold send_message
  rw [htok]
  simp only [hpay]

/-- With empty or absent recipients, `send_message` reduces to the one
self-send POST. -/
theorem send_message_self (jl : String → Except String Json) (w : World)
    (hook : KakaoHook) (st st1 : St) (uuids : Option (List String))
    (params : List (String × Json)) (tok : String) (payload : Json)
    (htok : readToken w hook st = (Except.ok tok, st1))
    (hpay : buildPayload jl params = Except.ok payload)
    (hru : uuids = none ∨ uuids = some []) :
    send_message jl w hook st uuids (some params) =
      match w.net st1.calls.length with
      | .ok body =>
          (Except.ok [body],
           { st1 with calls := st1.calls ++ [mkSelfCall (sendHeaders tok) payload] })
      | .httpError d =>
          (Except.error (.airflowException ("KakaoTalk Send Error: " ++ d)),
           { st1 with calls := st1.calls ++ [mkSelfCall (sendHeaders tok) payload] })
      | .transportError d =>
          (Except.error (.transportError d),
           { st1 with calls := st1.calls ++ [mkSelfCall (sendHeaders tok) payload] }) := by
  unfold send_message
  rw [htok]
  simp only [hpay]
  rcases hru with h | h <;> subst h <;>
    · unfold doPost mkSelfCall
      cases w.net st1.calls.length <;> rfl

/-- With a non-empty recipient list, `send_message` reduces to the chunked
friend-send loop over `chunk5`. -/
theorem send_message_friends (jl : String → Except String Json) (w : World)
    (hook : KakaoHook) (st st1 : St) (u : String) (us : List String)
    (params : List (String × Json)) (tok : String) (payload : Json)
    (htok : readToken w hook st = (Except.ok tok, st1))
    (hpay : buildPayload jl params = Except.ok payload) :
    send_message jl w hook st (some (u :: us)) (some params) =
      match sendBatches w (sendHeaders tok) payload (chunk5 (u :: us)) st1 [] with
      | (Except.ok results, st2) => (Except.ok results, st2)
      | (Except.error (.httpErr d), st2) =>
          (Except.error (.airflowException ("KakaoTalk Send Error: " ++ d)), st2)
      | (Except.error (.transportErr d), st2) =>
          (Except.error (.transportError d), st2)
      | (Except.error (.attrErr m), st2) =>
          (Except.error (.attributeError m), st2) := by
  unfold send_message
  rw [htok]
  simp only [hpay]

/- ### Which endpoints the dispatch phase can touch -/

theorem tokenCallCount_append_non (st : St) (c : HttpCall)
    (hc : (c.url == token_url) = false) :
    tokenCallCount { st with calls := st.calls ++ [c] } = tokenCallCount st := by
  simp [tokenCallCount, List.filter_append, hc]

theorem friend_url_ne_token_url : (send_friend_url == token_url) = false := by
  decide

theorem me_url_ne_token_url : (send_me_url == token_url) = false := by
  decide

/-- The friend-send loop never touches the token endpoint and never touches
the token cache. -/
theorem sendBatches_cache_tokenCalls (w : World) (hd : List (String × String))
    (p : Json) (chunks : List (List String)) (st : St) (acc : List Json) :
    (sendBatches w hd p chunks st acc).2.cache = st.cache
      ∧ tokenCallCount (sendBatches w hd p chunks st acc).2 = tokenCallCount st := by
  induction chunks generalizing st acc with
  | nil => exact ⟨rfl, rfl⟩
  | cons chunk rest ih =>
    have hstep : tokenCallCount { st with calls := st.calls ++ [mkFriendCall hd p chunk] }
        = tokenCallCount st :=
      tokenCallCount_append_non st (mkFriendCall hd p chunk) friend_url_ne_token_url
    cases hnet : w.net st.calls.length with
    | ok b =>
      cases b with
      | obj fields =>
        rw [sendBatches_cons_ok w hd p chunk rest st acc fields hnet]
        obtain ⟨h1, h2⟩ :=
          ih { st with calls := st.calls ++ [mkFriendCall hd p chunk] } (acc ++ [.obj fields])
        exact ⟨h1, h2.trans hstep⟩
      | null =>
        rw [sendBatches_cons_attrError w hd p chunk rest st acc _ hnet
          (fun fields h => Json.noConfusion h)]
        exact ⟨rfl, hstep⟩
      | bool x =>
        rw [sendBatches_cons_attrError w hd p chunk rest st acc _ hnet
          (fun fields h => Json.noConfusion h)]
        exact ⟨rfl, hstep⟩
      | num x =>
        rw [sendBatches_cons_attrError w hd p chunk rest st acc _ hnet
          (fun fields h => Json.noConfusion h)]
        exact ⟨rfl, hstep⟩
      | str x =>
        rw [sendBatches_cons_attrError w hd p chunk rest st acc _ hnet
          (fun fields h => Json.noConfusion h)]
        exact ⟨rfl, hstep⟩
      | arr x =>
        rw [sendBatches_cons_attrError w hd p chunk rest st acc _ hnet
          (fun fields h => Json.noConfusion h)]
        exact ⟨rfl, hstep⟩
    | httpError d =>
      rw [sendBatches_cons_httpError w hd p chunk rest st acc d hnet]
      exact ⟨rfl, hstep⟩
    | transportError d =>
      rw [sendBatches_cons_transportError w hd p chunk rest st acc d hnet]
      exact ⟨rfl, hstep⟩

/-- After a successful token read, the rest of `send_message` touches
neither the token cache nor the token endpoint: however the dispatch ends,
the final state keeps the cached token and adds no token-refresh call. -/
theorem send_message_after_token (jl : String → Except String Json) (w : World)
    (hook : KakaoHook) (st st1 : St) (uuids : Option (List String))
    (params : Option (List (String × Json))) (tok : String)
    (htok : readToken w hook st = (Except.ok tok, st1)) :
    (send_message jl w hook st uuids params).2.cache = st1.cache
      ∧ tokenCallCount (send_message jl w hook st uuids params).2 = tokenCallCount st1 := by
  match params with
  | none =>
    rw [send_message_none_params jl w hook st st1 uuids tok htok]
    exact ⟨rfl, rfl⟩
  | some ps =>
    match hpay : buildPayload jl ps with
    | Except.error e =>
      rw [send_message_payload_error jl w hook st st1 uuids ps tok e htok hpay]
      exact ⟨rfl, rfl⟩
    | Except.ok payload =>
      have hself : ∀ uu, uu = none ∨ uu = some ([] : List String) →
          (send_message jl w hook st uu (some ps)).2.cache = st1.cache
            ∧ tokenCallCount (send_message jl w hook st uu (some ps)).2 = tokenCallCount st1 := by
        intro uu huu
        rw [send_message_self jl w hook st st1 uu ps tok payload htok hpay huu]
        have hstep := tokenCallCount_append_non st1 (mkSelfCall (sendHeaders tok) payload)
          me_url_ne_token_url
        cases w.net st1.calls.length <;> exact ⟨rfl, hstep⟩
      match uuids with
      | none => exact hself none (Or.inl rfl)
      | some [] => exact hself (some []) (Or.inr rfl)
      | some (u :: us) =>
        rw [send_message_friends jl w hook st st1 u us ps tok payload htok hpay]
        obtain ⟨h1, h2⟩ :=
          sendBatches_cache_tokenCalls w (sendHeaders tok) payload (chunk5 (u :: us)) st1 []
        match hsb : sendBatches w (sendHeaders tok) payload (chunk5 (u :: us)) st1 [] with
        | (Except.ok results, st2) =>
          rw [hsb] at h1 h2
          exact ⟨h1, h2⟩
        | (Except.error (.httpErr d), st2) =>
          rw [hsb] at h1 h2
          exact ⟨h1, h2⟩
        | (Except.error (.transportErr d), st2) =>
          rw [hsb] at h1 h2
          exact ⟨h1, h2⟩
        | (Except.error (.attrErr m), st2) =>
          rw [hsb] at h1 h2
          exact ⟨h1, h2⟩


/- ### Concrete fixtures for witnesses and counterexamples -/

/-- A `json.loads` model that fails on every input (send paths that never
parse a template string do not consult it). -/
def jlNone : String → Except String Json :=
  fun s => Except.error ("Expecting value: " ++ s)

/-- A `json.loads` model defined on the one string used by the witnesses. -/
def jlFixed : String → Except String Json :=
  fun s => if s = "[1, 2]" then Except.ok (.arr [.num 1, .num 2])
           else Except.error ("Expecting value: " ++ s)

def connOk : Conn :=
  { login := some "client-id", password := some "refresh-tok", client_secret := none }

/-- World: token refresh succeeds with access token "tok1"; every later call
returns a 2xx JSON body. -/
def wOk : World :=
  { net := fun n =>
      if n = 0 then .ok (.obj [("access_token", .str "tok1")])
      else .ok (.obj [("result_code", .num 0)]),
    conns := fun _ => some connOk }

/-- World: the first HTTP call fails with a non-2xx status, the second
succeeds with access token "tok2". -/
def wFailThenOk : World :=
  { net := fun n =>
      if n = 0 then .httpError "500 Server Error"
      else .ok (.obj [("access_token", .str "tok2")]),
    conns := fun _ => some connOk }

/-- World: every HTTP call raises a transport-level error. -/
def wTransport0 : World :=
  { net := fun _ => .transportError "Connection reset by peer",
    conns := fun _ => some connOk }

def hookConn : KakaoHook := { _token := none, kakao_conn_id := some "kakao_default" }
def hookOverride : KakaoHook := { _token := some "direct-token", kakao_conn_id := some "kakao_default" }
def hookEmptyOverride : KakaoHook := { _token := some "", kakao_conn_id := some "kakao_default" }

def textParams : List (String × Json) := [("text", .str "hello")]

/-- The payload that `textParams` builds. -/
def textPayload : Json :=
  .obj [("object_type", .str "text"),
        ("text", .str "hello"),
        ("link", .obj [("web_url", .str "http://localhost:8080"),
                       ("mobile_web_url", .str "http://localhost:8080")])]

/- ### Claims -/

/-- C1 (counterexample): with no token override, calling `send_message` with
`api_params` lacking both keys still issues one HTTP call — the token
refresh, which happens before payload validation — so "zero HTTP calls,
including the token-refresh call" is false. -/
theorem C1_counterexample :
    (send_message jlNone wOk hookConn initSt none (some [])).1
        = Except.error (.airflowException "message_args must contain 'text' or 'template_object'.")
      ∧ (send_message jlNone wOk hookConn initSt none (some [])).2.calls = [mkTokenCall connOk]
      ∧ (mkTokenCall connOk).url = token_url := by
  exact ⟨rfl, rfl, rfl⟩

/-- C1 (amended): for every `api_params` containing neither `text` nor
`template_object`, once the token is resolved `send_message` fails with the
`InvalidMessageError` (`AirflowException`) and issues zero further HTTP
calls — the final state is exactly the post-token-read state, so no
self-send or friend-send call is made; the token-refresh call, however,
precedes validation and may already have been issued. -/
theorem C1_invalid_params_no_send (jl : String → Except String Json) (w : World)
    (hook : KakaoHook) (st st1 : St) (uuids : Option (List String))
    (params : List (String × Json)) (tok : String)
    (htok : readToken w hook st = (Except.ok tok, st1))
    (hnt : dictHas params "template_object" = false)
    (hnx : dictHas params "text" = false) :
    send_message jl w hook st uuids (some params) =
      (Except.error (.airflowException "message_args must contain 'text' or 'template_object'."), st1) := by
  apply send_message_payload_error jl w hook st st1 uuids params tok _ htok
  unfold buildPayload
  rw [hnt, hnx]
  rfl

/-- C1 witness: concrete run of the amended theorem; the one recorded call
is the token refresh. -/
theorem C1_witness :
    send_message jlNone wOk hookConn initSt none (some [("web_url", .str "w")]) =
      (Except.error (.airflowException "message_args must contain 'text' or 'template_object'."),
       { cache := some "tok1", calls := [mkTokenCall connOk] }) :=
  C1_invalid_params_no_send jlNone wOk hookConn initSt
    { cache := some "tok1", calls := [mkTokenCall connOk] } none
    [("web_url", .str "w")] "tok1" rfl rfl rfl

/-- C2: for every non-empty recipient list, `send_message` issues exactly
`ceil(N/5) = (N+4)/5` friend-send HTTP calls, in order, the i-th carrying
the i-th contiguous slice of at most 5 recipients; the concatenation of the
batches is the original list (nothing omitted or duplicated), and only the
last batch may be smaller than 5. -/
theorem C2_batching (jl : String → Except String Json) (w : World)
    (hook : KakaoHook) (st st1 : St) (u : String) (us : List String)
    (params : List (String × Json)) (tok : String) (payload : Json)
    (htok : readToken w hook st = (Except.ok tok, st1))
    (hpay : buildPayload jl params = Except.ok payload)
    (hok : ∀ n, (w.net n).isOkDict = true) :
    send_message jl w hook st (some (u :: us)) (some params) =
        (Except.ok (okBodies w st1.calls.length (chunk5 (u :: us)).length),
         { st1 with calls :=
             st1.calls ++ (chunk5 (u :: us)).map (mkFriendCall (sendHeaders tok) payload) })
      ∧ (chunk5 (u :: us)).length = ((u :: us).length + 4) / 5
      ∧ (chunk5 (u :: us)).flatten = u :: us
      ∧ (∀ c ∈ chunk5 (u :: us), c.length ≤ 5)
      ∧ (∀ c ∈ (chunk5 (u :: us)).dropLast, c.length = 5) := by
  refine ⟨?_, chunk5_length _, chunk5_join _,
    fun c hc => chunk5_mem_length_le _ c hc,
    fun c hc => chunk5_dropLast_full _ c hc⟩
  rw [send_message_friends jl w hook st st1 u us params tok payload htok hpay,
      sendBatches_allOk w (sendHeaders tok) payload (chunk5 (u :: us)) st1 [] hok]
  rfl

/-- C2 witness: 6 recipients with an override token give 2 friend-send
calls with batches of sizes 5 and 1 in original order. -/
theorem C2_witness :
    send_message jlNone wOk hookOverride initSt
        (some ["a", "b", "c", "d", "e", "f"]) (some textParams) =
      (Except.ok [.obj [("access_token", .str "tok1")], .obj [("result_code", .num 0)]],
       { cache := some "direct-token",
         calls := [mkFriendCall (sendHeaders "direct-token") textPayload ["a", "b", "c", "d", "e"],
                   mkFriendCall (sendHeaders "direct-token") textPayload ["f"]] }) := by
  have h := (C2_batching jlNone wOk hookOverride initSt
    { cache := some "direct-token", calls := [] }
    "a" ["b", "c", "d", "e", "f"] textParams "direct-token" textPayload
    rfl rfl (fun n => by cases n <;> rfl)).1
  exact h.trans (by rfl)


/-- C3 (counterexample): a failed token read is not cached (`cached_property`
stores nothing when the body raises), so reading the token twice — first
read failing with a non-2xx refresh response, second succeeding — issues two
token-refresh HTTP calls in one invocation, refuting "at most one
token-refresh HTTP call per invocation regardless of how many times the
token is read". -/
theorem C3_counterexample :
    (readToken wFailThenOk hookConn initSt).1
        = Except.error (.airflowException "Kakao Token Refresh Error: 500 Server Error")
      ∧ (readToken wFailThenOk hookConn
           (readToken wFailThenOk hookConn initSt).2).1 = Except.ok "tok2"
      ∧ (readToken wFailThenOk hookConn
           (readToken wFailThenOk hookConn initSt).2).2.calls.map (fun c => c.url)
        = [token_url, token_url] := by
  exact ⟨rfl, rfl, rfl⟩

/-- C3 (amended): memoization of successful reads. On a cold cache with no
override, a successful read issues exactly one POST to the token endpoint
and stores the access token in the cache; and any read that finds a cached
value returns it unchanged with no HTTP call. (A read whose refresh fails
caches nothing, so only successful reads are memoized.) -/
theorem C3_token_memoization (w : World) (hook : KakaoHook) (st : St)
    (connId : String) (conn : Conn) (fields : List (String × Json)) (tok : String)
    (hc : st.cache = none) (ht : hook._token = none)
    (hid : hook.kakao_conn_id = some connId) (hid' : connId ≠ "")
    (hconn : w.conns connId = some conn)
    (hlogin : strTruthy conn.login = true) (hpw : strTruthy conn.password = true)
    (hnet : w.net st.calls.length = .ok (.obj fields))
    (hfield : dictGet fields "access_token" = some (.str tok)) (htok : tok ≠ "") :
    readToken w hook st =
        (Except.ok tok, { cache := some tok, calls := st.calls ++ [mkTokenCall conn] })
      ∧ ∀ (w' : World) (hook' : KakaoHook) (st' : St) (t : String),
          st'.cache = some t → readToken w' hook' st' = (Except.ok t, st') := by
  exact ⟨readToken_refresh_success w hook st connId conn fields tok hc ht hid hid'
      hconn hlogin hpw hnet hfield htok,
    fun w' hook' st' t h => readToken_cached w' hook' st' t h⟩

/-- C3 witness: first read refreshes once and caches "tok1"; the second
read returns the cached token with no state change. -/
theorem C3_witness :
    readToken wOk hookConn initSt =
        (Except.ok "tok1", { cache := some "tok1", calls := [mkTokenCall connOk] })
      ∧ readToken wOk hookConn { cache := some "tok1", calls := [mkTokenCall connOk] } =
        (Except.ok "tok1", { cache := some "tok1", calls := [mkTokenCall connOk] }) := by
  have h := C3_token_memoization wOk hookConn initSt "kakao_default" connOk
    [("access_token", .str "tok1")] "tok1" rfl rfl rfl (by decide) rfl rfl rfl rfl rfl
    (by decide)
  exact ⟨h.1, h.2 wOk hookConn { cache := some "tok1", calls := [mkTokenCall connOk] } "tok1" rfl⟩

/-- C4 (counterexample): a transport-level send failure is not wrapped into
the `DispatchError` (`AirflowException "KakaoTalk Send Error: …"`) — the
`except` clause catches only `requests.exceptions.HTTPError` — so the raw
transport exception propagates, refuting "fails with a DispatchError"
for transport errors. -/
theorem C4_counterexample :
    (send_message jlNone wTransport0 hookOverride initSt (some ["a"]) (some textParams)).1
        = Except.error (.transportError "Connection reset by peer")
      ∧ ∀ m, (send_message jlNone wTransport0 hookOverride initSt
          (some ["a"]) (some textParams)).1 ≠ Except.error (.airflowException m) := by
  refine ⟨rfl, fun m h => ?_⟩
  rw [show (send_message jlNone wTransport0 hookOverride initSt (some ["a"]) (some textParams)).1
      = Except.error (.transportError "Connection reset by peer") from rfl] at h
  exact PyError.noConfusion (Except.error.inj h)

/-- C4 (amended): any send-call failure halts the dispatch. Friend branch:
when the k-th batch call fails — earlier calls succeeding with JSON-object
bodies, as required for the loop to get past its `failure_info` lookup —
batches 0..k are issued exactly once each (no retry, no rollback), later
batches are never issued, and a non-2xx status surfaces as
`AirflowException ("KakaoTalk Send Error: " ++ detail)` while a transport
error propagates as the raw exception. Self branch: a failing self-send
call yields the same wrap/propagate classification after exactly the one
self-send POST. -/
theorem C4_dispatch_failure (jl : String → Except String Json) (w : World)
    (hook : KakaoHook) (st st1 : St)
    (params : List (String × Json)) (tok : String) (payload : Json)
    (htok : readToken w hook st = (Except.ok tok, st1))
    (hpay : buildPayload jl params = Except.ok payload) :
    (∀ (u : String) (us : List String) (k : Nat) (e : SendErr),
        k < (chunk5 (u :: us)).length →
        (∀ j, j < k → (w.net (st1.calls.length + j)).isOkDict = true) →
        failErr (w.net (st1.calls.length + k)) = some e →
        send_message jl w hook st (some (u :: us)) (some params) =
          ((match e with
            | .httpErr d => Except.error (.airflowException ("KakaoTalk Send Error: " ++ d))
            | .transportErr d => Except.error (.transportError d)
            | .attrErr m => Except.error (.attributeError m)),
           { st1 with calls := st1.calls ++
               ((chunk5 (u :: us)).take (k + 1)).map (mkFriendCall (sendHeaders tok) payload) }))
      ∧ (∀ (uuids : Option (List String)) (e : SendErr),
          uuids = none ∨ uuids = some [] →
          failErr (w.net st1.calls.length) = some e →
          send_message jl w hook st uuids (some params) =
            ((match e with
              | .httpErr d => Except.error (.airflowException ("KakaoTalk Send Error: " ++ d))
              | .transportErr d => Except.error (.transportError d)
              | .attrErr m => Except.error (.attributeError m)),
             { st1 with calls := st1.calls ++ [mkSelfCall (sendHeaders tok) payload] })) := by
  constructor
  · intro u us k e hk hok hfail
    rw [send_message_friends jl w hook st st1 u us params tok payload htok hpay,
        sendBatches_fail w (sendHeaders tok) payload (chunk5 (u :: us)) st1 [] k e hk hok hfail]
    cases e <;> rfl
  · intro uuids e hru hfail
    rw [send_message_self jl w hook st st1 uuids params tok payload htok hpay hru]
    cases hnet : w.net st1.calls.length with
    | ok b => rw [hnet] at hfail; simp [failErr] at hfail
    | httpError d =>
      rw [hnet] at hfail
      simp only [failErr, Option.some.injEq] at hfail
      subst hfail
      rfl
    | transportError d =>
      rw [hnet] at hfail
      simp only [failErr, Option.some.injEq] at hfail
      subst hfail
      rfl

/-- C4 witness: a transport failure on the first call. Friend case with 6
recipients: only one friend-send call is issued (the second batch is never
sent) and the raw transport error is the result; self case: the one
self-send call, same raw error. -/
theorem C4_witness :
    (send_message jlNone wTransport0 hookOverride initSt
          (some ["a", "b", "c", "d", "e", "f"]) (some textParams) =
        (Except.error (.transportError "Connection reset by peer"),
         { cache := some "direct-token",
           calls := [mkFriendCall (sendHeaders "direct-token") textPayload
                       ["a", "b", "c", "d", "e"]] }))
      ∧ (send_message jlNone wTransport0 hookOverride initSt none (some textParams) =
        (Except.error (.transportError "Connection reset by peer"),
         { cache := some "direct-token",
           calls := [mkSelfCall (sendHeaders "direct-token") textPayload] })) := by
  have h := C4_dispatch_failure jlNone wTransport0 hookOverride initSt
    { cache := some "direct-token", calls := [] } textParams "direct-token" textPayload
    rfl rfl
  constructor
  · exact (h.1 "a" ["b", "c", "d", "e", "f"] 0 (.transportErr "Connection reset by peer")
      (by decide) (fun j hj => absurd hj (Nat.not_lt_zero j)) rfl).trans (by rfl)
  · exact (h.2 none (.transportErr "Connection reset by peer") (Or.inl rfl) rfl).trans (by rfl)

/-- C5: for every `api_params` containing `text` and not `template_object`,
the built payload is exactly
`{object_type: "text", text, link: {web_url, mobile_web_url}}` with
`web_url` defaulting to the fixed placeholder "http://localhost:8080" when
absent and `mobile_web_url` defaulting to `web_url` when absent. -/
theorem C5_text_payload (jl : String → Except String Json)
    (params : List (String × Json)) (t : Json)
    (hnt : dictHas params "template_object" = false)
    (ht : dictGet params "text" = some t) :
    buildPayload jl params = Except.ok (.obj
      [("object_type", .str "text"),
       ("text", t),
       ("link", .obj
         [("web_url", (dictGet params "web_url").getD (.str "http://localhost:8080")),
          ("mobile_web_url",
            (dictGet params "mobile_web_url").getD
              ((dictGet params "web_url").getD (.str "http://localhost:8080")))])]) := by
  unfold buildPayload
  rw [hnt]
  simp [dictHas, ht, default_url]

/-- C5 witness: `api_params = {"text": "hello"}` builds the payload with
both link fields equal to the default placeholder. -/
theorem C5_witness :
    buildPayload jlNone textParams = Except.ok (.obj
      [("object_type", .str "text"),
       ("text", .str "hello"),
       ("link", .obj
         [("web_url", .str "http://localhost:8080"),
          ("mobile_web_url", .str "http://localhost:8080")])]) := by
  have h := C5_text_payload jlNone textParams (.str "hello") rfl rfl
  exact h.trans (by rfl)

/-- C6: whenever `template_object` is a key of `api_params` — regardless of
whether `text` is also present — its value becomes the payload: a string
value is passed through `json.loads` first (a parse failure surfacing as
the uncaught decode error), any other value is used verbatim. -/
theorem C6_template_precedence (jl : String → Except String Json)
    (params : List (String × Json)) (v : Json)
    (hv : dictGet params "template_object" = some v) :
    (∀ s, v = .str s →
        buildPayload jl params = (jl s).mapError PyError.jsonDecodeError)
      ∧ ((∀ s, v ≠ .str s) → buildPayload jl params = Except.ok v) := by
  constructor
  · intro s hs
    subst hs
    unfold buildPayload
    simp only [dictHas, hv, Option.isSome_some, if_true]
    cases jl s <;> rfl
  · intro hns
    unfold buildPayload
    simp only [dictHas, hv, Option.isSome_some, if_true]

/-- C6 witness: a JSON-string template is parsed before use, and a
structured template is used as-is even when `text` is also present. -/
theorem C6_witness :
    buildPayload jlFixed [("template_object", .str "[1, 2]"), ("text", .str "ignored")]
        = Except.ok (.arr [.num 1, .num 2])
      ∧ buildPayload jlNone [("template_object", .obj [("object_type", .str "feed")]),
                             ("text", .str "ignored")]
        = Except.ok (.obj [("object_type", .str "feed")]) := by
  constructor
  · have h := (C6_template_precedence jlFixed
      [("template_object", .str "[1, 2]"), ("text", .str "ignored")]
      (.str "[1, 2]") rfl).1 "[1, 2]" rfl
    exact h.trans (by rfl)
  · have h := (C6_template_precedence jlNone
      [("template_object", .obj [("object_type", .str "feed")]), ("text", .str "ignored")]
      (.obj [("object_type", .str "feed")]) rfl).2
      (fun s hs => Json.noConfusion hs)
    exact h

/-- C7 (counterexample): `if self._token:` is a truthiness test, so a hook
constructed with the explicit (but falsy) override `""` does not return the
override: it falls through to the refresh flow and issues a token-endpoint
HTTP call, refuting "returns the override immediately and zero HTTP calls
are ever made to the token endpoint" for every explicit override. -/
theorem C7_counterexample :
    (readToken wOk hookEmptyOverride initSt).1 = Except.ok "tok1"
      ∧ (readToken wOk hookEmptyOverride initSt).2.calls.map (fun c => c.url)
        = [token_url] := by
  exact ⟨rfl, rfl⟩

/-- C7 (amended): for a hook constructed with a non-empty token override,
reading the token returns the override immediately (cached, no HTTP call),
and an entire `send_message` invocation adds no call to the token-refresh
endpoint while keeping the override cached — so repeated sends never hit
the token endpoint. -/
theorem C7_override_no_refresh (jl : String → Except String Json) (w : World)
    (hook : KakaoHook) (st : St) (uuids : Option (List String))
    (params : Option (List (String × Json))) (t : String)
    (hc : st.cache = none) (ht : hook._token = some t) (hne : t ≠ "") :
    readToken w hook st = (Except.ok t, { st with cache := some t })
      ∧ tokenCallCount (send_message jl w hook st uuids params).2 = tokenCallCount st
      ∧ (send_message jl w hook st uuids params).2.cache = some t := by
  have hrt := readToken_override w hook st t hc ht hne
  obtain ⟨h1, h2⟩ := send_message_after_token jl w hook st { st with cache := some t }
    uuids params t hrt
  exact ⟨hrt, h2, h1⟩

/-- C7 witness: with override "direct-token", a 6-recipient send makes no
token-endpoint call (the token-call count stays 0) and the override stays
cached. -/
theorem C7_witness :
    readToken wOk hookOverride initSt =
        (Except.ok "direct-token", { cache := some "direct-token", calls := [] })
      ∧ tokenCallCount (send_message jlNone wOk hookOverride initSt
          (some ["a", "b", "c", "d", "e", "f"]) (some textParams)).2 = tokenCallCount initSt
      ∧ (send_message jlNone wOk hookOverride initSt
          (some ["a", "b", "c", "d", "e", "f"]) (some textParams)).2.cache
        = some "direct-token" := by
  have h := C7_override_no_refresh jlNone wOk hookOverride initSt
    (some ["a", "b", "c", "d", "e", "f"]) (some textParams) "direct-token"
    rfl rfl (by decide)
  exact ⟨h.1.trans (by rfl), h.2.1, h.2.2⟩


/-- C8: with recipients empty or absent and a valid payload, `send_message`
issues exactly one POST to the self-send endpoint — carrying the
JSON-encoded payload as the `template_object` form field and the
bearer-token Authorization header — and returns the one-element list with
the parsed response. -/
theorem C8_self_send (jl : String → Except String Json) (w : World)
    (hook : KakaoHook) (st st1 : St) (uuids : Option (List String))
    (params : List (String × Json)) (tok : String) (payload : Json) (body : Json)
    (htok : readToken w hook st = (Except.ok tok, st1))
    (hpay : buildPayload jl params = Except.ok payload)
    (hru : uuids = none ∨ uuids = some [])
    (hnet : w.net st1.calls.length = .ok body) :
    send_message jl w hook st uuids (some params) =
        (Except.ok [body],
         { st1 with calls := st1.calls ++ [mkSelfCall (sendHeaders tok) payload] })
      ∧ (mkSelfCall (sendHeaders tok) payload).url = send_me_url
      ∧ (mkSelfCall (sendHeaders tok) payload).data
          = [("template_object", jsonDumps payload)]
      ∧ ("Authorization", "Bearer " ++ tok) ∈ (mkSelfCall (sendHeaders tok) payload).headers := by
  refine ⟨?_, rfl, rfl, by simp [mkSelfCall, sendHeaders]⟩
  rw [send_message_self jl w hook st st1 uuids params tok payload htok hpay hru, hnet]

/-- C8 witness: the spec scenario — connection credentials, refresh returns
"tok1", self-send of a text message: two HTTP calls total (refresh, then
self-send with `Bearer tok1`) and a singleton result. -/
theorem C8_witness :
    send_message jlNone wOk hookConn initSt none (some textParams) =
      (Except.ok [.obj [("result_code", .num 0)]],
       { cache := some "tok1",
         calls := [mkTokenCall connOk, mkSelfCall (sendHeaders "tok1") textPayload] }) := by
  have h := (C8_self_send jlNone wOk hookConn initSt
    { cache := some "tok1", calls := [mkTokenCall connOk] } none
    textParams "tok1" textPayload (.obj [("result_code", .num 0)])
    rfl rfl (Or.inl rfl) rfl).1
  exact h.trans (by rfl)

/-- C9: calling `send_message` with `api_params` left at its default `None`
raises the `TypeError` of the `in`-test on `None` (not the
`InvalidMessageError`), and only after the token was resolved: the final
state is exactly the post-token-read state, which may already contain the
token-refresh HTTP call. -/
theorem C9_none_params_typeerror (jl : String → Except String Json) (w : World)
    (hook : KakaoHook) (st st1 : St) (uuids : Option (List String)) (tok : String)
    (htok : readToken w hook st = (Except.ok tok, st1)) :
    send_message jl w hook st uuids none =
      (Except.error (.typeError "argument of type 'NoneType' is not iterable"), st1) :=
  send_message_none_params jl w hook st st1 uuids tok htok

/-- C9 witness: with no token override, the `TypeError` surfaces after the
token-refresh POST was already issued (one call in the trace). -/
theorem C9_witness :
    send_message jlNone wOk hookConn initSt none none =
      (Except.error (.typeError "argument of type 'NoneType' is not iterable"),
       { cache := some "tok1", calls := [mkTokenCall connOk] }) := by
  have h := C9_none_params_typeerror jlNone wOk hookConn initSt
    { cache := some "tok1", calls := [mkTokenCall connOk] } none "tok1" rfl
  exact h

/-- C10: presence is key membership, not truthiness. Mapping
`template_object` to the falsy `None` still selects the template branch:
the payload is `null`, no `InvalidMessageError` is possible whenever the
`template_object` key (or, absent that, the `text` key) is present —
whatever falsy value it maps to — and the dispatched self-send carries the
JSON literal `null` as the `template_object` form field. -/
theorem C10_membership_not_truthiness (jl : String → Except String Json) (w : World)
    (hook : KakaoHook) (st st1 : St) (params : List (String × Json)) (tok : String)
    (htok : readToken w hook st = (Except.ok tok, st1))
    (hnull : dictGet params "template_object" = some .null) :
    buildPayload jl params = Except.ok .null
      ∧ (∀ body, w.net st1.calls.length = .ok body →
          send_message jl w hook st none (some params) =
            (Except.ok [body],
             { st1 with calls := st1.calls ++ [mkSelfCall (sendHeaders tok) .null] }))
      ∧ (mkSelfCall (sendHeaders tok) .null).data = [("template_object", "null")]
      ∧ (∀ (params' : List (String × Json)) (v : Json),
          dictGet params' "template_object" = some v →
          ∀ m, buildPayload jl params' ≠ Except.error (.airflowException m))
      ∧ (∀ (params' : List (String × Json)) (t : Json),
          dictHas params' "template_object" = false →
          dictGet params' "text" = some t →
          ∀ m, buildPayload jl params' ≠ Except.error (.airflowException m)) := by
  have hpay : buildPayload jl params = Except.ok .null := by
    unfold buildPayload
    simp only [dictHas, hnull, Option.isSome_some, if_true]
  refine ⟨hpay, ?_, rfl, ?_, ?_⟩
  · intro body hb
    rw [send_message_self jl w hook st st1 none params tok .null htok hpay (Or.inl rfl), hb]
  · intro params' v hv m
    unfold buildPayload
    simp only [dictHas, hv, Option.isSome_some, if_true]
    cases v with
    | str s => cases hjl : jl s <;> simp [hjl]
    | null => simp
    | bool b => simp
    | num n => simp
    | arr es => simp
    | obj fs => simp
  · intro params' t hnt ht m
    unfold buildPayload
    rw [hnt]
    simp [dictHas, ht]

/-- C10 witness: `api_params = `{"template_object": None}` dispatches the
form field `template_object=null` instead of raising the
`InvalidMessageError`. -/
theorem C10_witness :
    buildPayload jlNone [("template_object", Json.null)] = Except.ok .null
      ∧ send_message jlNone wOk hookConn initSt none (some [("template_object", Json.null)]) =
        (Except.ok [.obj [("result_code", .num 0)]],
         { cache := some "tok1",
           calls := [mkTokenCall connOk, mkSelfCall (sendHeaders "tok1") .null] })
      ∧ (mkSelfCall (sendHeaders "tok1") Json.null).data = [("template_object", "null")] := by
  have h := C10_membership_not_truthiness jlNone wOk hookConn initSt
    { cache := some "tok1", calls := [mkTokenCall connOk] }
    [("template_object", Json.null)] "tok1" rfl rfl
  exact ⟨h.1, (h.2.1 (.obj [("result_code", .num 0)]) rfl).trans (by rfl), h.2.2.1⟩


end Kakao
